import Mathlib

/-!
Verification of the asynchronous job orchestration / chunked-object transfer
layer of the Amazon Omics tutorial notebooks.

The notebooks are shallowly embedded: each relevant cell or helper function
becomes a pure Lean function over explicit inputs (remote-service responses,
exception outcomes), with Python exceptions modelled as `Except PyErr` values
and printed output modelled as an explicit list of printed lines.  Components
that the specification describes but that are absent from the sources
(BatchSubmitter, JobWaiter, PartedObjectReader) are modelled from the spec and
marked as such in their doc comments.
-/

/-- Python exception outcomes observable in the embedded code.  The
`manifestFieldMissing` and `manifestPairMismatch` constructors are the typed
failures named by the specification (no notebook code constructs them); the
remaining constructors are the Python built-in / botocore exceptions the
notebook code can actually raise. -/
inductive PyErr where
  | indexError : PyErr
  | typeError : PyErr
  | nameError : PyErr
  | attributeError : PyErr
  | runtimeError (msg : String) : PyErr
  | clientError (code : String) : PyErr
  | manifestFieldMissing : PyErr
  | manifestPairMismatch : PyErr
deriving DecidableEq, Repr

/-- Splits a character list on a separator, keeping empty groups, so that
`splitChar sep` mirrors Python's `str.split(sep)` (in particular the split of
the empty string is `[""]`). -/
def splitChar (sep : Char) : List Char → List (List Char)
  | [] => [[]]
  | c :: cs =>
    let r := splitChar sep cs
    if c = sep then [] :: r
    else
      match r with
      | [] => [[c]]
      | g :: gs => (c :: g) :: gs

/-- Python `s.split(sep)` for a one-character separator. -/
def pySplit (s : String) (sep : Char) : List String :=
  (splitChar sep s.toList).map (fun cs => String.mk cs)

/-- Python list indexing `l[i]` with negative-index support: a negative index
counts from the end, and an out-of-range index raises `IndexError`. -/
def pyIdx (l : List String) (i : Int) : Except PyErr String :=
  let n : Int := l.length
  let j : Int := if i < 0 then n + i else i
  if 0 ≤ j ∧ j < n then Except.ok (l.getD j.toNat "") else Except.error PyErr.indexError

/-- Characters of an `s3://netloc/path` URI after the `s3://` scheme prefix. -/
def afterScheme (uri : String) : List Char :=
  uri.toList.drop 5

/-- `urllib.parse.urlparse(uri).netloc` for an `s3://` URI: the characters
between the scheme and the first slash. -/
def uriNetloc (uri : String) : String :=
  String.mk ((afterScheme uri).takeWhile (fun c => c ≠ '/'))

/-- `urllib.parse.urlparse(uri).path[1:]` for an `s3://` URI: the path with its
leading slash removed (empty when the URI has no path). -/
def uriPathRest (uri : String) : String :=
  String.mk (((afterScheme uri).dropWhile (fun c => c ≠ '/')).drop 1)

/-- `urlparse(uri).path[1:].split('/')`, the segment list both notebooks index
into to derive subject and sample identifiers. -/
def pathSegments (uri : String) : List String :=
  pySplit (uriPathRest uri) '/'

/-- Embeds `get_ref_store_id` from the storage notebook.  Its input is the
`resp.get('referenceStores')` value of the `list_reference_stores` response:
`none` when the response omits the key, `some stores` otherwise.  The code
initialises `store_id = None`, and only when the list is not `None` evaluates
`list_of_stores[0].get('id')` - indexing element `0` of an empty list raises
`IndexError`. -/
def get_ref_store_id (resp : Option (List String)) : Except PyErr (Option String) :=
  match resp with
  | none => Except.ok none
  | some [] => Except.error PyErr.indexError
  | some (id0 :: _) => Except.ok (some id0)

/-- Attributes of the `botocore` package module that matter to the embedded
code: the package exposes an `exceptions` submodule and nothing spelled
`exeptions`.  Models the external botocore library at its boundary. -/
def botocoreAttrs : List String := ["exceptions"]

/-- Module-level names in scope inside the storage notebook (part_000) when
`get_role_arn` runs: the names bound by its import cell plus prior
assignments.  `ClientError` is never bound as a bare name. -/
def storageNotebookGlobals : List String :=
  ["datetime", "it", "json", "gzip", "os", "pprint", "time", "urllib",
   "boto3", "botocore", "requests", "dt_fmt", "ts", "demo_policy",
   "demo_trust_policy", "omics_iam_name", "iam", "role", "get_role_arn"]

/-- Module-level names in scope inside the analytics notebook (part_001) when
`get_role_arn` runs.  `ClientError` is never bound as a bare name (only
`botocore.exceptions` is imported). -/
def analyticsNotebookGlobals : List String :=
  ["datetime", "json", "os", "time", "urllib", "boto3", "botocore",
   "dt_fmt", "ts", "demo_policy", "demo_trust_policy", "omics_iam_name",
   "iam", "role", "get_role_arn"]

/-- Evaluation of the except-clause expression `botocore.exeptions.ClientError`
in the storage notebook's `get_role_arn`: `botocore` resolves as a global, but
the attribute lookup `exeptions` fails, so evaluating the handler raises
`AttributeError`. -/
def resolveStorageExceptClause : Except PyErr Unit :=
  if "botocore" ∈ storageNotebookGlobals then
    if "exeptions" ∈ botocoreAttrs then Except.ok () else Except.error PyErr.attributeError
  else Except.error PyErr.nameError

/-- Evaluation of the except-clause expression `ClientError` in the analytics
notebook's `get_role_arn`: the bare name is unbound, so evaluating the handler
raises `NameError`. -/
def resolveAnalyticsExceptClause : Except PyErr Unit :=
  if "ClientError" ∈ analyticsNotebookGlobals then Except.ok ()
  else Except.error PyErr.nameError

/-- Embeds `get_role_arn` from the storage notebook.  `load` is the outcome of
`role.load()`: `Except.ok arn` when the role loads (the function then returns
`role.arn`), `Except.error code` when it raises a
`botocore.exceptions.ClientError` with that error code.  When `load` fails,
Python evaluates the except-clause expression before running the handler body;
if that evaluation itself fails, its exception escalates and neither the
`print` nor the `raise` is reached.  Returns the function's outcome paired
with the list of lines it printed. -/
def get_role_arn_storage (roleName : String) (load : Except String String) :
    Except PyErr String × List String :=
  match load with
  | Except.ok arn => (Except.ok arn, [])
  | Except.error code =>
    match resolveStorageExceptClause with
    | Except.error e => (Except.error e, [])
    | Except.ok _ =>
      (Except.error (PyErr.clientError code),
       ["Couldn\x27t get role named " ++ roleName ++ "."])

/-- Embeds `get_role_arn` from the analytics notebook; identical to the
storage variant except that its except clause is the bare name `ClientError`. -/
def get_role_arn_analytics (roleName : String) (load : Except String String) :
    Except PyErr String × List String :=
  match load with
  | Except.ok arn => (Except.ok arn, [])
  | Except.error code =>
    match resolveAnalyticsExceptClause with
    | Except.error e => (Except.error e, [])
    | Except.ok _ =>
      (Except.error (PyErr.clientError code),
       ["Couldn\x27t get role named " ++ roleName ++ "."])

/-- Result of running the role-bootstrap cell shared by both notebooks. -/
inductive RoleSetupOutcome where
  | loaded : RoleSetupOutcome
  | created : RoleSetupOutcome
  | printedWarning : RoleSetupOutcome
deriving DecidableEq, Repr

/-- The message printed by the role-bootstrap cell's else branch (spelling as
in the source). -/
def roleSetupWarning : String :=
  "Somthing went wrong, please retry and check your account settings and permissions"

/-- Embeds the role-bootstrap cell present in both notebooks.  `load` is the
outcome of `role.load()` (`Except.error code` for a
`botocore.exceptions.ClientError` with that code).  On `NoSuchEntity` the cell
creates the role and policy; on any other client error it prints a warning and
falls through to a normal return.  Returns the cell's outcome (an `Except.ok`
value in every client-error case - no exception propagates) paired with the
printed lines. -/
def roleSetupCell (load : Except String Unit) : Except PyErr RoleSetupOutcome × List String :=
  match load with
  | Except.ok _ => (Except.ok RoleSetupOutcome.loaded, [])
  | Except.error code =>
    if code = "NoSuchEntity" then (Except.ok RoleSetupOutcome.created, [])
    else (Except.ok RoleSetupOutcome.printedWarning, [roleSetupWarning])

/-- Strict lexicographic comparison of character lists by code point, the
order Python uses to compare strings. -/
def lexLtChar : List Char → List Char → Bool
  | [], [] => false
  | [], _ :: _ => true
  | _ :: _, [] => false
  | a :: as, b :: bs =>
    if a.toNat < b.toNat then true
    else if b.toNat < a.toNat then false
    else lexLtChar as bs

/-- Python's `<=` on strings: code-point lexicographic order. -/
def pyStrLe (a b : String) : Bool :=
  ! lexLtChar b.toList a.toList

/-- Inserts a string into an already sorted list, after every element that is
`<=` it (so the overall sort is stable, as Python's `sorted` is). -/
def insertLe (x : String) : List String → List String
  | [] => [x]
  | y :: ys => if pyStrLe y x then y :: insertLe x ys else x :: y :: ys

/-- Python's `sorted` on a list of strings: a stable sort by code-point
lexicographic order, here realised as insertion sort. -/
def pySorted : List String → List String
  | [] => []
  | x :: xs => insertLe x (pySorted xs)

/-- An import source descriptor as built by the storage notebook's manifest
cells: one dictionary entry per source, with `source2` present only for
paired FASTQ reads. -/
structure SourceDesc where
  subjectId : String
  sampleId : String
  sourceFileType : String
  source1 : String
  source2 : Option String
  referenceArn : String
  generatedFrom : String
  description : String
  tagSourceLocation : String
deriving DecidableEq, Repr

/-- Embeds one iteration of the storage notebook's `cram_sources` loop:
`subject_id = source.path[1:].split('/')[-2]` and
`sample_id = source.path[1:].split('/')[-1].split('.')[0]`, then the CRAM
descriptor dictionary.  The negative indexing raises `IndexError` when the
path has fewer than two segments. -/
def cramSource (refArn : String) (uri : String) : Except PyErr SourceDesc := do
  let segs := pathSegments uri
  let subjectId ← pyIdx segs (-2)
  let base ← pyIdx segs (-1)
  let sampleId := (pySplit base '.').headD ""
  Except.ok
    { subjectId := subjectId
      sampleId := sampleId
      sourceFileType := "CRAM"
      source1 := uri
      source2 := none
      referenceArn := refArn
      generatedFrom := uri
      description := subjectId ++ "/" ++ sampleId ++ " from " ++ uriNetloc uri
      tagSourceLocation := uriNetloc uri }

/-- The whole `cram_sources` loop: descriptors in input order, aborting at the
first URI whose dictionary construction raises. -/
def cramSources (refArn : String) (uris : List String) : Except PyErr (List SourceDesc) :=
  uris.mapM (cramSource refArn)

/-- Embeds the storage notebook's FASTQ pairing:
`zip(sorted(u)[:len(u)//2], sorted(u)[len(u)//2:])` - sort the URIs, split the
sorted list at `len(u) // 2`, and zip the two halves (Python's `zip` stops at
the shorter half). -/
def fastqPairs (uris : List String) : List (String × String) :=
  let s := pySorted uris
  (s.take (uris.length / 2)).zip (s.drop (uris.length / 2))

/-- Embeds one iteration of the `fastq_sources` loop:
`subject_id = source.path[1:].split('/')[1]` and
`sample_id = source.path[1:].split('/')[5]` from the first read of the pair,
then the FASTQ descriptor dictionary with both reads as `source1`/`source2`.
The positional indexing raises `IndexError` when the first read's path has
fewer than six segments. -/
def fastqSource (refArn : String) (reads : String × String) : Except PyErr SourceDesc := do
  let segs := pathSegments reads.1
  let subjectId ← pyIdx segs 1
  let sampleId ← pyIdx segs 5
  Except.ok
    { subjectId := subjectId
      sampleId := sampleId
      sourceFileType := "FASTQ"
      source1 := reads.1
      source2 := some reads.2
      referenceArn := refArn
      generatedFrom := subjectId ++ "/" ++ sampleId ++ " fastq"
      description := subjectId ++ "/" ++ sampleId ++ " from " ++ uriNetloc reads.1
      tagSourceLocation := uriNetloc reads.1 }

/-- The whole `fastq_sources` loop over the zipped pairs. -/
def fastqSources (refArn : String) (uris : List String) : Except PyErr (List SourceDesc) :=
  (fastqPairs uris).mapM (fastqSource refArn)

/-- Remote-side store state visible to the bootstrap cells: the identifiers of
the reference stores and sequence stores that exist in the account/region. -/
structure OmicsState where
  refStores : List String
  seqStores : List String
deriving DecidableEq, Repr

/-- Modelled from the spec: the remote `list_reference_stores` response as the
notebook assumes it - the `referenceStores` key is omitted when no store
exists ("have it return empty if it doesn't exist") and otherwise carries the
store list.  The remote service itself is outside the sources. -/
def listRefStoresResp (s : OmicsState) : Option (List String) :=
  if s.refStores.isEmpty then none else some s.refStores

/-- Outcome of one run of the reference-store bootstrap cell: the new remote
state, the container identifier the caller observes, and how many list and
create calls the run issued. -/
structure BootstrapResult where
  state : OmicsState
  result : Except PyErr String
  listCalls : Nat
  createCalls : Nat
deriving Repr

/-- Embeds the storage notebook's reference-store bootstrap cell: probe with
`get_ref_store_id` (exactly one `list_reference_stores` call), and call
`create_reference_store` only when the probe returns `None`.  The remote
assigns the fresh store identifier (modelled as `refstore-<count>`). -/
def ensureRefStore (s : OmicsState) : BootstrapResult :=
  match get_ref_store_id (listRefStoresResp s) with
  | Except.error e =>
    { state := s, result := Except.error e, listCalls := 1, createCalls := 0 }
  | Except.ok none =>
    let newId := "refstore-" ++ toString s.refStores.length
    { state := { s with refStores := s.refStores ++ [newId] }
      result := Except.ok newId, listCalls := 1, createCalls := 1 }
  | Except.ok (some sid) =>
    { state := s, result := Except.ok sid, listCalls := 1, createCalls := 0 }

/-- Embeds the storage notebook's sequence-store cell:
`omics.create_sequence_store(name=...)` with no probe of any kind - every run
issues one create call, and the remote assigns a fresh store identifier
(modelled as `seqstore-<count>`). -/
def create_sequence_store (s : OmicsState) : OmicsState × String :=
  let newId := "seqstore-" ++ toString s.seqStores.length
  ({ s with seqStores := s.seqStores ++ [newId] }, newId)

/-- A reference entry of a `list_references` response page. -/
structure RefEntry where
  name : String
  arn : String
deriving DecidableEq, Repr

/-- The message of the `RuntimeError` raised by `get_reference_arn` when no
reference store exists (spelling as in the source). -/
def refStoreMissingMsg : String :=
  "You have not created a reference store, please got to the Amazon Omics Storage tutorial to learn how to create one. Do note continue with this notebook"

/-- The message of the `RuntimeError` raised by `get_reference_arn` when no
reference with the requested name is found (spelling as in the source). -/
def refNotFoundMsg (refName : String) : String :=
  "Could not find " ++ refName ++ ", please got to the Amazon Omics Storage tutorial to learn how to import one. Do note continue with this notebook"

/-- Embeds `get_reference_arn` from the analytics notebook.  `storesResp` is
the `resp.get('referenceStores')` value of the `list_reference_stores`
response; `refsResp` is the `resp.get('references')` value of the single
(first-page) `list_references` call.  The code takes
`ref_stores[0] if ref_stores else None` (so both an absent key and an empty
list mean "no store"), raises `RuntimeError` when there is no store, then
iterates `for ref in resp.get('references')` (iterating `None` raises
`TypeError`), overwriting `ref_arn` on every name match, and raises
`RuntimeError` when no match was recorded. -/
def get_reference_arn (refName : String) (storesResp : Option (List String))
    (refsResp : Option (List RefEntry)) : Except PyErr String :=
  let refStore : Option String :=
    match storesResp with
    | none => none
    | some [] => none
    | some (sid :: _) => some sid
  match refStore with
  | none => Except.error (PyErr.runtimeError refStoreMissingMsg)
  | some _ =>
    match refsResp with
    | none => Except.error PyErr.typeError
    | some refs =>
      match refs.foldl (fun a r => if r.name = refName then some r.arn else a) none with
      | none => Except.error (PyErr.runtimeError (refNotFoundMsg refName))
      | some arn => Except.ok arn

/-- The claim's reading of the loop result: the ARN of the last reference in
listing order whose name equals the requested name. -/
def lastMatchingArn (refs : List RefEntry) (refName : String) : Option String :=
  (refs.reverse.find? (fun r => r.name == refName)).map RefEntry.arn

/-- Whether a `list_reference_stores` response means "no reference store
exists": the key is absent or the list is empty (both are falsy in Python). -/
def noRefStore : Option (List String) → Bool
  | none => true
  | some [] => true
  | some (_ :: _) => false

/-- Modelled from the spec: BatchSubmitter's chunking is absent from the
sources (the storage notebook submits one job carrying every source, the
analytics notebook one job per item); per the spec it partitions the
descriptor list into consecutive chunks of at most `B` elements, preserving
input order. -/
def chunksOf {α : Type} (B : Nat) : List α → List (List α)
  | [] => []
  | x :: xs => (x :: xs.take (B - 1)) :: chunksOf B (xs.drop (B - 1))
termination_by l => l.length
decreasing_by simp [List.length_drop]; omega

/-- A remote import job handle as BatchSubmitter sees it: the ordered
descriptor list submitted with it. -/
structure ImportJob (α : Type) where
  sources : List α
deriving DecidableEq, Repr

/-- Modelled from the spec: `BatchSubmitter.submit_all` - partition the
descriptors into chunks of at most `maxBatchSize` and submit one remote import
job per chunk, in order. -/
def submit_all {α : Type} (descriptors : List α) (maxBatchSize : Nat) : List (ImportJob α) :=
  (chunksOf maxBatchSize descriptors).map ImportJob.mk

/-- One remote part-retrieval attempt, as recorded in a transfer trace. -/
inductive FetchEvent where
  | fail (partNumber : Nat) : FetchEvent
  | success (partNumber : Nat) : FetchEvent
deriving DecidableEq, Repr

/-- Modelled from the spec: the bounded per-part retry loop of
PartedObjectReader (absent from the sources, which fetch only part 1).
`failuresBefore` is the number of transient failures this part's retrieval
produces before it would succeed; `budget` is the remaining attempt budget.
Exhausting the budget fails with `PartRetrievalFailed(partNumber)` (the error
carries the part number); otherwise the part's bytes are returned together
with the trace of attempts made. -/
def tryFetch (partNumber : Nat) (content : List Nat) (failuresBefore : Nat) :
    Nat → Except Nat (List Nat × List FetchEvent)
  | 0 => Except.error partNumber
  | b + 1 =>
    match failuresBefore with
    | 0 => Except.ok (content, [FetchEvent.success partNumber])
    | f + 1 =>
      match tryFetch partNumber content f b with
      | Except.ok (c, evs) => Except.ok (c, FetchEvent.fail partNumber :: evs)
      | Except.error e => Except.error e

/-- Modelled from the spec: PartedObjectReader's sequential walk over parts
`n, n+1, ...` of a channel, appending each retrieved part's bytes to the
destination as it arrives and concatenating the per-part retrieval traces. -/
def readObjectGo (fails : Nat → Nat) (budget : Nat) :
    Nat → List (List Nat) → Except Nat (List Nat × List FetchEvent)
  | _, [] => Except.ok ([], [])
  | n, p :: ps =>
    match tryFetch n p (fails n) budget with
    | Except.error e => Except.error e
    | Except.ok (c, evs) =>
      match readObjectGo fails budget (n + 1) ps with
      | Except.error e => Except.error e
      | Except.ok (rest, evs2) => Except.ok (c ++ rest, evs ++ evs2)

/-- Modelled from the spec: `PartedObjectReader.read_object` - retrieve parts
`1..N` of the channel in strictly increasing order (part `i+1` of the channel
is `parts[i]`), with per-part bounded retry, returning the destination bytes
and the full retrieval trace. -/
def readObject (parts : List (List Nat)) (fails : Nat → Nat) (budget : Nat) :
    Except Nat (List Nat × List FetchEvent) :=
  readObjectGo fails budget 1 parts

/-- The trace the spec prescribes for parts `n, n+1, ..., n+k-1`: for each
part in increasing order, its transient failures followed by its single
success, with earlier parts never re-fetched. -/
def expectedTraceFrom (fails : Nat → Nat) : Nat → Nat → List FetchEvent
  | _, 0 => []
  | n, k + 1 =>
    (List.replicate (fails n) (FetchEvent.fail n) ++ [FetchEvent.success n]) ++
      expectedTraceFrom fails (n + 1) k

/-- The spec's expected trace for parts `1..numParts`. -/
def expectedTrace (fails : Nat → Nat) (numParts : Nat) : List FetchEvent :=
  expectedTraceFrom fails 1 numParts

/-- A job status as reported by the remote service. -/
inductive JobStatus where
  | submitted : JobStatus
  | inProgress : JobStatus
  | completed : JobStatus
  | failed : JobStatus
  | cancelled : JobStatus
deriving DecidableEq, Repr

/-- Whether a status is terminal (no further transition occurs). -/
def JobStatus.isTerminal : JobStatus → Bool
  | JobStatus.completed => true
  | JobStatus.failed => true
  | JobStatus.cancelled => true
  | JobStatus.submitted => false
  | JobStatus.inProgress => false

/-- The outcome of a bounded wait: a terminal status, or a timeout with the
remote job left running. -/
inductive WaitResult where
  | terminal (s : JobStatus) : WaitResult
  | waitTimeout : WaitResult
deriving DecidableEq, Repr

/-- Modelled from the spec: the polling loop of `JobWaiter.wait` (realised in
the sources only through opaque botocore waiters).  `poll i` is the status the
`i`-th poll observes; with attempt budget `k+1` the waiter polls index `i`,
returns that status if it is terminal, and otherwise recurses; a zero budget
times out.  The waiter only reads status - it never cancels or mutates the
remote job. -/
def waitFrom (poll : Nat → JobStatus) : Nat → Nat → WaitResult
  | 0, _ => WaitResult.waitTimeout
  | k + 1, i =>
    if (poll i).isTerminal then WaitResult.terminal (poll i)
    else waitFrom poll k (i + 1)

/-- Modelled from the spec: `JobWaiter.wait` with `maxAttempts` polls,
starting from the first observation. -/
def JobWaiter_wait (poll : Nat → JobStatus) (maxAttempts : Nat) : WaitResult :=
  waitFrom poll maxAttempts 0

/-- C8: `get_ref_store_id` returns `None` exactly when the listing response
omits the reference-store list entirely, and raises `IndexError` when the
response carries a present-but-empty list (the code compares the list to
`None` and then indexes element 0 without a length check). -/
theorem get_ref_store_id_empty_list_raises :
    (∀ resp : Option (List String), get_ref_store_id resp = Except.ok none ↔ resp = none) ∧
    get_ref_store_id (some []) = Except.error PyErr.indexError := by
  constructor
  · intro resp
    match resp with
    | none => simp [get_ref_store_id]
    | some [] => simp [get_ref_store_id]
    | some (id0 :: rest) => simp [get_ref_store_id]
  · rfl

/-- C9: in both notebooks, whenever `role.load()` raises a client error inside
`get_role_arn`, the except clause itself fails to resolve (`botocore.exeptions`
raises `AttributeError` in the storage notebook; the unbound bare name
`ClientError` raises `NameError` in the analytics notebook), so the function
escalates with that handler error, prints nothing, and never re-raises the
original client error. -/
theorem get_role_arn_handler_escalates (roleName code : String) :
    get_role_arn_storage roleName (Except.error code) = (Except.error PyErr.attributeError, []) ∧
    get_role_arn_analytics roleName (Except.error code) = (Except.error PyErr.nameError, []) ∧
    (PyErr.attributeError ≠ PyErr.clientError code ∧ PyErr.nameError ≠ PyErr.clientError code) := by
  refine ⟨rfl, rfl, ?_, ?_⟩ <;> intro h <;> cases h

/-- C7 counterexample: the role-bootstrap cell, given a client error with code
`AccessDenied` from `role.load()`, returns normally (an `Except.ok` outcome)
having reduced the failure to a printed message - the error is neither
re-raised nor surfaced as a typed failure result, refuting the claim that no
component silently swallows an error. -/
theorem roleSetupCell_swallows_access_denied :
    roleSetupCell (Except.error "AccessDenied") =
      (Except.ok RoleSetupOutcome.printedWarning, [roleSetupWarning]) ∧
    (Except.ok RoleSetupOutcome.printedWarning : Except PyErr RoleSetupOutcome) ≠
      Except.error (PyErr.clientError "AccessDenied") := by
  refine ⟨rfl, ?_⟩
  intro h
  cases h

/-- C7 amended: the role-bootstrap cell in both notebooks swallows every
non-`NoSuchEntity` client error raised while loading the IAM role, reducing it
to the printed warning line and returning normally. -/
theorem roleSetupCell_swallows_non_no_such_entity (code : String)
    (h : code ≠ "NoSuchEntity") :
    roleSetupCell (Except.error code) =
      (Except.ok RoleSetupOutcome.printedWarning, [roleSetupWarning]) := by
  simp [roleSetupCell, h]

/-- C7 amended, witness: instantiation at the concrete code `Throttling`. -/
theorem roleSetupCell_swallows_witness :
    "Throttling" ≠ "NoSuchEntity" ∧
    roleSetupCell (Except.error "Throttling") =
      (Except.ok RoleSetupOutcome.printedWarning, [roleSetupWarning]) :=
  ⟨by decide, roleSetupCell_swallows_non_no_such_entity "Throttling" (by decide)⟩

theorem insertLe_length (x : String) (l : List String) :
    (insertLe x l).length = l.length + 1 := by
  induction l with
  | nil => rfl
  | cons y ys ih =>
    simp only [insertLe]
    split
    · simp [ih]
    · simp

theorem pySorted_length (l : List String) : (pySorted l).length = l.length := by
  induction l with
  | nil => rfl
  | cons x xs ih => simp [pySorted, insertLe_length, ih]

theorem pyIdx_neg2_ok (l : List String) (h : 2 ≤ l.length) :
    pyIdx l (-2) = Except.ok (l.getD (l.length - 2) "") := by
  unfold pyIdx
  dsimp only
  rw [if_pos (by omega : (-2 : Int) < 0)]
  rw [if_pos (by constructor <;> omega)]
  have : ((l.length : Int) + (-2)).toNat = l.length - 2 := by omega
  rw [this]

theorem pyIdx_neg2_err (l : List String) (h : l.length < 2) :
    pyIdx l (-2) = Except.error PyErr.indexError := by
  unfold pyIdx
  dsimp only
  rw [if_pos (by omega : (-2 : Int) < 0)]
  rw [if_neg (by intro hc; omega)]

theorem pyIdx_neg1_ok (l : List String) (h : 1 ≤ l.length) :
    pyIdx l (-1) = Except.ok (l.getD (l.length - 1) "") := by
  unfold pyIdx
  dsimp only
  rw [if_pos (by omega : (-1 : Int) < 0)]
  rw [if_pos (by constructor <;> omega)]
  have : ((l.length : Int) + (-1)).toNat = l.length - 1 := by omega
  rw [this]

/-- C5 counterexample: three FASTQ locators (an odd number) are accepted
without any error - the sort-and-zip pairing silently drops the last locator
and one paired descriptor is produced, so the builder does not fail with
`ManifestPairMismatch`. -/
theorem fastqSources_odd_produces_descriptors :
    fastqSources "arn:ref"
      ["s3://giab/data/NA12878/r/x/p/Sample_U0a/a1.fastq.gz",
       "s3://giab/data/NA12878/r/x/p/Sample_U0a/a2.fastq.gz",
       "s3://giab/data/NA12878/r/x/p/Sample_U0a/a3.fastq.gz"] =
      Except.ok
        [{ subjectId := "NA12878"
           sampleId := "Sample_U0a"
           sourceFileType := "FASTQ"
           source1 := "s3://giab/data/NA12878/r/x/p/Sample_U0a/a1.fastq.gz"
           source2 := some "s3://giab/data/NA12878/r/x/p/Sample_U0a/a2.fastq.gz"
           referenceArn := "arn:ref"
           generatedFrom := "NA12878/Sample_U0a fastq"
           description := "NA12878/Sample_U0a from giab"
           tagSourceLocation := "giab" }] ∧
    fastqSources "arn:ref"
      ["s3://giab/data/NA12878/r/x/p/Sample_U0a/a1.fastq.gz",
       "s3://giab/data/NA12878/r/x/p/Sample_U0a/a2.fastq.gz",
       "s3://giab/data/NA12878/r/x/p/Sample_U0a/a3.fastq.gz"] ≠
      Except.error PyErr.manifestPairMismatch := by
  constructor
  · rfl
  · intro h
    rw [show fastqSources "arn:ref"
      ["s3://giab/data/NA12878/r/x/p/Sample_U0a/a1.fastq.gz",
       "s3://giab/data/NA12878/r/x/p/Sample_U0a/a2.fastq.gz",
       "s3://giab/data/NA12878/r/x/p/Sample_U0a/a3.fastq.gz"] =
      Except.ok
        [{ subjectId := "NA12878"
           sampleId := "Sample_U0a"
           sourceFileType := "FASTQ"
           source1 := "s3://giab/data/NA12878/r/x/p/Sample_U0a/a1.fastq.gz"
           source2 := some "s3://giab/data/NA12878/r/x/p/Sample_U0a/a2.fastq.gz"
           referenceArn := "arn:ref"
           generatedFrom := "NA12878/Sample_U0a fastq"
           description := "NA12878/Sample_U0a from giab"
           tagSourceLocation := "giab" }] from rfl] at h
    exact Except.noConfusion h

/-- C5 amended: for an odd number `L` of paired FASTQ inputs, the pairing
raises no error: it produces exactly `L / 2` pairs, zipping the first half of
the sorted list against the second half with the second half's final element
(the last element of the sorted list) silently dropped. -/
theorem fastqPairs_odd_truncates (uris : List String) (h : Odd uris.length) :
    (fastqPairs uris).length = uris.length / 2 ∧
    fastqPairs uris =
      ((pySorted uris).take (uris.length / 2)).zip
        (((pySorted uris).drop (uris.length / 2)).dropLast) := by
  obtain ⟨m, hm⟩ := h
  have hs : (pySorted uris).length = uris.length := pySorted_length uris
  have hhalf : uris.length / 2 = m := by omega
  have hlt : ((pySorted uris).take m).length = m := by
    rw [List.length_take]; omega
  have hld : ((pySorted uris).drop m).length = m + 1 := by
    rw [List.length_drop]; omega
  have hne : (pySorted uris).drop m ≠ [] := by
    intro hnil
    rw [hnil] at hld
    simp at hld
  have hlen2 : ((pySorted uris).take m).length = (((pySorted uris).drop m).dropLast).length := by
    rw [hlt, List.length_dropLast, hld]
    omega
  have key : (((pySorted uris).drop m).dropLast) ++ [((pySorted uris).drop m).getLast hne]
      = (pySorted uris).drop m := List.dropLast_append_getLast hne
  have zipkey : ((pySorted uris).take m).zip ((pySorted uris).drop m)
      = ((pySorted uris).take m).zip (((pySorted uris).drop m).dropLast) := by
    conv_lhs => rw [← key, show (pySorted uris).take m
      = ((pySorted uris).take m) ++ [] from (List.append_nil _).symm]
    rw [List.zip_append hlen2]
    simp
  constructor
  · simp only [fastqPairs, hhalf, List.length_zip, hlt, hld]
    omega
  · simp only [fastqPairs, hhalf]
    exact zipkey

/-- C5 amended, witness: three reads give one pair, built from the sorted
list minus its last element. -/
theorem fastqPairs_odd_truncates_witness :
    Odd (["r1", "r2", "r3"] : List String).length ∧
    ((fastqPairs ["r1", "r2", "r3"]).length = (["r1", "r2", "r3"] : List String).length / 2 ∧
      fastqPairs ["r1", "r2", "r3"] =
        ((pySorted ["r1", "r2", "r3"]).take ((["r1", "r2", "r3"] : List String).length / 2)).zip
          (((pySorted ["r1", "r2", "r3"]).drop ((["r1", "r2", "r3"] : List String).length / 2)).dropLast)) :=
  ⟨by decide, fastqPairs_odd_truncates ["r1", "r2", "r3"] (by decide)⟩

/-- C6 counterexample: a CRAM locator whose path has a single segment makes
the descriptor loop raise a raw `IndexError` (from the `[-2]` indexing), which
is not the typed `ManifestFieldMissing` failure the claim names. -/
theorem cramSource_short_path_index_error :
    cramSource "arn:ref" "s3://1000genomes/HG00405.final.cram" =
      Except.error PyErr.indexError ∧
    (Except.error PyErr.indexError : Except PyErr SourceDesc) ≠
      Except.error PyErr.manifestFieldMissing := by
  constructor
  · rfl
  · intro h
    exact PyErr.noConfusion (Except.error.inj h)

/-- C6 amended: the CRAM descriptor derives the subject identifier from the
second-to-last path segment and the sample identifier from the last segment's
basename before its first dot; when the path has fewer than two segments the
loop raises a raw `IndexError` (not a typed `ManifestFieldMissing`). -/
theorem cramSource_segment_positions (refArn uri : String) :
    (2 ≤ (pathSegments uri).length →
      cramSource refArn uri = Except.ok
        { subjectId := (pathSegments uri).getD ((pathSegments uri).length - 2) ""
          sampleId := (pySplit ((pathSegments uri).getD ((pathSegments uri).length - 1) "") '.').headD ""
          sourceFileType := "CRAM"
          source1 := uri
          source2 := none
          referenceArn := refArn
          generatedFrom := uri
          description := (pathSegments uri).getD ((pathSegments uri).length - 2) "" ++ "/" ++
            (pySplit ((pathSegments uri).getD ((pathSegments uri).length - 1) "") '.').headD "" ++
            " from " ++ uriNetloc uri
          tagSourceLocation := uriNetloc uri }) ∧
    ((pathSegments uri).length < 2 →
      cramSource refArn uri = Except.error PyErr.indexError) := by
  constructor
  · intro h
    have e2 := pyIdx_neg2_ok (pathSegments uri) h
    have e1 := pyIdx_neg1_ok (pathSegments uri) (by omega)
    simp only [cramSource, e2, e1]
    rfl
  · intro h
    have e2 := pyIdx_neg2_err (pathSegments uri) h
    simp only [cramSource, e2]
    rfl

/-- C6 amended, witness: a three-segment CRAM locator yields the accession
and basename identifiers; a one-segment locator raises `IndexError`. -/
theorem cramSource_segment_positions_witness :
    (2 ≤ (pathSegments "s3://1000genomes/data/ERR3988761/HG00405.final.cram").length ∧
      cramSource "arn:r" "s3://1000genomes/data/ERR3988761/HG00405.final.cram" = Except.ok
        { subjectId := (pathSegments "s3://1000genomes/data/ERR3988761/HG00405.final.cram").getD
            ((pathSegments "s3://1000genomes/data/ERR3988761/HG00405.final.cram").length - 2) ""
          sampleId := (pySplit ((pathSegments "s3://1000genomes/data/ERR3988761/HG00405.final.cram").getD
            ((pathSegments "s3://1000genomes/data/ERR3988761/HG00405.final.cram").length - 1) "") '.').headD ""
          sourceFileType := "CRAM"
          source1 := "s3://1000genomes/data/ERR3988761/HG00405.final.cram"
          source2 := none
          referenceArn := "arn:r"
          generatedFrom := "s3://1000genomes/data/ERR3988761/HG00405.final.cram"
          description := (pathSegments "s3://1000genomes/data/ERR3988761/HG00405.final.cram").getD
              ((pathSegments "s3://1000genomes/data/ERR3988761/HG00405.final.cram").length - 2) "" ++ "/" ++
            (pySplit ((pathSegments "s3://1000genomes/data/ERR3988761/HG00405.final.cram").getD
              ((pathSegments "s3://1000genomes/data/ERR3988761/HG00405.final.cram").length - 1) "") '.').headD "" ++
            " from " ++ uriNetloc "s3://1000genomes/data/ERR3988761/HG00405.final.cram"
          tagSourceLocation := uriNetloc "s3://1000genomes/data/ERR3988761/HG00405.final.cram" }) ∧
    ((pathSegments "s3://bucket/x.cram").length < 2 ∧
      cramSource "arn:r" "s3://bucket/x.cram" = Except.error PyErr.indexError) :=
  ⟨⟨by decide, (cramSource_segment_positions "arn:r"
      "s3://1000genomes/data/ERR3988761/HG00405.final.cram").1 (by decide)⟩,
   ⟨by decide, (cramSource_segment_positions "arn:r" "s3://bucket/x.cram").2 (by decide)⟩⟩

/-- C4 counterexample: the sequence-store path is not idempotent - running the
cell twice from an empty account creates two stores (two create calls, with no
list-before-create probe anywhere in the cell) and returns two distinct
container identifiers. -/
theorem create_sequence_store_not_idempotent :
    (create_sequence_store (create_sequence_store ⟨[], []⟩).1).2 ≠
      (create_sequence_store (⟨[], []⟩ : OmicsState)).2 ∧
    (create_sequence_store (create_sequence_store ⟨[], []⟩).1).1.seqStores.length = 2 ∧
    ¬ (2 ≤ 1) := by
  decide

/-- C4 amended: the bootstrap is idempotent for the reference-store kind -
two consecutive runs observe the same container identifier, each run probes
the listing exactly once, and at most one create call is issued in total -
while the sequence-store cell performs no probe and issues exactly one create
call on every run. -/
theorem ensureRefStore_idempotent (s : OmicsState) :
    (ensureRefStore s).result = (ensureRefStore (ensureRefStore s).state).result ∧
    (ensureRefStore s).listCalls = 1 ∧
    (ensureRefStore (ensureRefStore s).state).listCalls = 1 ∧
    (ensureRefStore s).createCalls + (ensureRefStore (ensureRefStore s).state).createCalls ≤ 1 ∧
    (create_sequence_store s).1.seqStores.length = s.seqStores.length + 1 ∧
    (create_sequence_store (create_sequence_store s).1).1.seqStores.length = s.seqStores.length + 2 := by
  rcases s with ⟨rs, ss⟩
  cases rs with
  | nil => simp [ensureRefStore, listRefStoresResp, get_ref_store_id, create_sequence_store]
  | cons r rest => simp [ensureRefStore, listRefStoresResp, get_ref_store_id, create_sequence_store]

theorem foldl_last_match (refName : String) (refs : List RefEntry) (acc : Option String) :
    refs.foldl (fun a r => if r.name = refName then some r.arn else a) acc
      = (lastMatchingArn refs refName).or acc := by
  induction refs using List.reverseRecOn generalizing acc with
  | nil => simp [lastMatchingArn]
  | append_singleton l r ih =>
    by_cases hname : r.name = refName
    · simp [List.foldl_append, lastMatchingArn, hname]
    · rw [List.foldl_append]
      simp only [List.foldl_cons, List.foldl_nil]
      rw [if_neg hname, ih]
      have hsame : lastMatchingArn (l ++ [r]) refName = lastMatchingArn l refName := by
        simp [lastMatchingArn, hname]
      rw [hsame]

/-- C10: over a listing whose `references` page is present, `get_reference_arn`
raises `RuntimeError` exactly when no reference store exists (absent key or
empty store list) or no reference on the page bears the requested name, and
otherwise returns the ARN of the last reference in listing order whose name
equals the requested name. -/
theorem get_reference_arn_spec (refName : String)
    (storesResp : Option (List String)) (refs : List RefEntry) :
    ((∃ msg, get_reference_arn refName storesResp (some refs) =
        Except.error (PyErr.runtimeError msg)) ↔
      (noRefStore storesResp = true ∨ lastMatchingArn refs refName = none)) ∧
    (∀ arn, get_reference_arn refName storesResp (some refs) = Except.ok arn ↔
      (noRefStore storesResp = false ∧ lastMatchingArn refs refName = some arn)) := by
  have hfold := foldl_last_match refName refs none
  rcases storesResp with _ | sl
  · simp [get_reference_arn, noRefStore]
  · cases sl with
    | nil => simp [get_reference_arn, noRefStore]
    | cons s0 rest =>
      simp only [get_reference_arn, noRefStore, hfold, Option.or_none]
      cases hlm : lastMatchingArn refs refName with
      | none => simp
      | some a => simp [eq_comm]

theorem chunksOf_flatten {α : Type} (B : Nat) (l : List α) :
    (chunksOf B l).flatten = l := by
  match l with
  | [] => simp [chunksOf]
  | x :: xs =>
    have ih := chunksOf_flatten B (xs.drop (B - 1))
    rw [chunksOf]
    simp only [List.flatten_cons, ih, List.cons_append]
    rw [List.take_append_drop]
termination_by l.length
decreasing_by simp [List.length_drop]; omega

theorem chunksOf_length {α : Type} (B : Nat) (hB : 0 < B) (l : List α) :
    (chunksOf B l).length = (l.length + B - 1) / B := by
  match l with
  | [] =>
    simp only [chunksOf, List.length_nil, Nat.zero_add]
    symm
    exact Nat.div_eq_of_lt (by omega)
  | x :: xs =>
    have ih := chunksOf_length B hB (xs.drop (B - 1))
    rw [chunksOf]
    simp only [List.length_cons, ih, List.length_drop]
    have h1 : xs.length + 1 + B - 1 = xs.length + B := by omega
    rw [h1, Nat.add_div_right _ hB]
    congr 1
    rcases le_or_lt (B - 1) xs.length with hle | hlt
    · have h2 : xs.length - (B - 1) + B - 1 = xs.length := by omega
      rw [h2]
    · have h0 : xs.length - (B - 1) = 0 := by omega
      rw [h0]
      rw [Nat.div_eq_of_lt (by omega), Nat.div_eq_of_lt (by omega)]
termination_by l.length
decreasing_by simp [List.length_drop]; omega

theorem chunksOf_sizes {α : Type} (B : Nat) (hB : 0 < B) (l : List α) :
    ∀ c ∈ chunksOf B l, c.length ≤ B := by
  match l with
  | [] => simp [chunksOf]
  | x :: xs =>
    have ih := chunksOf_sizes B hB (xs.drop (B - 1))
    rw [chunksOf]
    intro c hc
    rcases List.mem_cons.mp hc with rfl | hmem
    · have ht : (xs.take (B - 1)).length ≤ B - 1 := List.length_take_le (B - 1) xs
      simp only [List.length_cons]
      omega
    · exact ih c hmem
termination_by l.length
decreasing_by simp [List.length_drop]; omega

/-- C1: for every descriptor list and positive maximum batch size `B`,
`submit_all` submits one job per chunk, producing exactly
`ceil(length / B) = (length + B - 1) / B` jobs, each carrying at most `B`
descriptors, and the concatenation of the jobs' descriptor lists in submission
order is the original input list. -/
theorem submit_all_partitions {α : Type} (descriptors : List α) (B : Nat) (hB : 0 < B) :
    (submit_all descriptors B).length = (descriptors.length + B - 1) / B ∧
    (∀ j ∈ submit_all descriptors B, j.sources.length ≤ B) ∧
    ((submit_all descriptors B).map ImportJob.sources).flatten = descriptors := by
  refine ⟨?_, ?_, ?_⟩
  · simp [submit_all, chunksOf_length B hB]
  · intro j hj
    simp only [submit_all, List.mem_map] at hj
    obtain ⟨c, hc, rfl⟩ := hj
    exact chunksOf_sizes B hB descriptors c hc
  · have hmap : (submit_all descriptors B).map ImportJob.sources = chunksOf B descriptors := by
      rw [submit_all, List.map_map]
      have hcomp : (ImportJob.sources ∘ ImportJob.mk : List α → List α) = id := rfl
      rw [hcomp, List.map_id]
    rw [hmap, chunksOf_flatten]

/-- C1 witness: five descriptors with batch size 2 give `ceil(5/2) = 3` jobs,
each of at most 2 descriptors, concatenating back to the input. -/
theorem submit_all_partitions_witness :
    0 < 2 ∧
    ((submit_all ["d1", "d2", "d3", "d4", "d5"] 2).length =
        ((["d1", "d2", "d3", "d4", "d5"] : List String).length + 2 - 1) / 2 ∧
      (∀ j ∈ submit_all ["d1", "d2", "d3", "d4", "d5"] 2, j.sources.length ≤ 2) ∧
      ((submit_all ["d1", "d2", "d3", "d4", "d5"] 2).map ImportJob.sources).flatten =
        ["d1", "d2", "d3", "d4", "d5"]) :=
  ⟨by decide, submit_all_partitions ["d1", "d2", "d3", "d4", "d5"] 2 (by decide)⟩

theorem tryFetch_ok (partNumber : Nat) (content : List Nat) (f budget : Nat) (h : f < budget) :
    tryFetch partNumber content f budget =
      Except.ok (content,
        List.replicate f (FetchEvent.fail partNumber) ++ [FetchEvent.success partNumber]) := by
  induction budget generalizing f with
  | zero => omega
  | succ b ih =>
    cases f with
    | zero => simp [tryFetch]
    | succ g =>
      have hg : g < b := by omega
      simp [tryFetch, ih g hg, List.replicate_succ]

theorem readObjectGo_ok (fails : Nat → Nat) (budget : Nat) (parts : List (List Nat)) :
    ∀ n, (∀ i, i < parts.length → fails (n + i) < budget) →
    readObjectGo fails budget n parts =
      Except.ok (parts.flatten, expectedTraceFrom fails n parts.length) := by
  induction parts with
  | nil =>
    intro n _
    simp [readObjectGo, expectedTraceFrom]
  | cons p ps ih =>
    intro n h
    have h0 : fails n < budget := by
      have := h 0 (by simp)
      simpa using this
    have hrest : ∀ i, i < ps.length → fails (n + 1 + i) < budget := by
      intro i hi
      have := h (i + 1) (by simp; omega)
      have harith : n + (i + 1) = n + 1 + i := by omega
      rw [harith] at this
      exact this
    simp only [readObjectGo, List.length_cons]
    rw [tryFetch_ok n p (fails n) budget h0]
    rw [ih (n + 1) hrest]
    simp [expectedTraceFrom]

/-- C2: for a channel with `N` parts whose per-part transient failure counts
all stay below the retry budget, `read_object` succeeds: the destination is
byte-exactly the concatenation of parts `1..N` in order, and the retrieval
trace is exactly each part's failures followed by its single success in
strictly increasing part-number order - so an intermediate part that fails
and then succeeds on retry is retried alone, without re-fetching earlier
parts. -/
theorem readObject_reconstructs (parts : List (List Nat)) (fails : Nat → Nat) (budget : Nat)
    (h : ∀ i, i < parts.length → fails (1 + i) < budget) :
    readObject parts fails budget =
      Except.ok (parts.flatten, expectedTrace fails parts.length) :=
  readObjectGo_ok fails budget parts 1 h

/-- C2 witness: three parts with part 2 failing once under a budget of two
attempts reconstruct `[1,2]++[3]++[4,5]` with the expected trace. -/
theorem readObject_reconstructs_witness :
    (∀ i, i < ([[1, 2], [3], [4, 5]] : List (List Nat)).length →
      ((fun p => if p = 2 then 1 else 0) : Nat → Nat) (1 + i) < 2) ∧
    readObject [[1, 2], [3], [4, 5]] (fun p => if p = 2 then 1 else 0) 2 =
      Except.ok (([[1, 2], [3], [4, 5]] : List (List Nat)).flatten,
        expectedTrace (fun p => if p = 2 then 1 else 0)
          ([[1, 2], [3], [4, 5]] : List (List Nat)).length) :=
  ⟨by decide,
   readObject_reconstructs [[1, 2], [3], [4, 5]] (fun p => if p = 2 then 1 else 0) 2 (by decide)⟩

theorem waitFrom_timeout (poll : Nat → JobStatus) :
    ∀ (k i : Nat), (∀ j, i ≤ j → j < i + k → (poll j).isTerminal = false) →
    waitFrom poll k i = WaitResult.waitTimeout := by
  intro k
  induction k with
  | zero => intro i _; rfl
  | succ m ih =>
    intro i h
    have h0 : (poll i).isTerminal = false := h i (Nat.le_refl i) (by omega)
    simp only [waitFrom, h0, Bool.false_eq_true, if_false]
    exact ih (i + 1) (fun j hj1 hj2 => h j (by omega) (by omega))

theorem waitFrom_step (poll : Nat → JobStatus) (k i : Nat)
    (hnt : (poll i).isTerminal = false) :
    waitFrom poll (k + 1) i = waitFrom poll k (i + 1) := by
  simp [waitFrom, hnt]

theorem waitFrom_hit (poll : Nat → JobStatus) (k i : Nat)
    (ht : (poll i).isTerminal = true) :
    waitFrom poll (k + 1) i = WaitResult.terminal (poll i) := by
  simp [waitFrom, ht]

/-- C3: a job polled as Submitted, InProgress, InProgress, Completed makes the
waiter (given at least four attempts) return the terminal status Completed;
and a job still InProgress on every one of the `maxAttempts` polls makes the
waiter return WaitTimeout, which is never the Completed terminal result. -/
theorem JobWaiter_wait_spec (poll1 poll2 : Nat → JobStatus) (m1 m2 : Nat)
    (hm : 4 ≤ m1)
    (h0 : poll1 0 = JobStatus.submitted) (h1 : poll1 1 = JobStatus.inProgress)
    (h2 : poll1 2 = JobStatus.inProgress) (h3 : poll1 3 = JobStatus.completed)
    (hip : ∀ i, i < m2 → poll2 i = JobStatus.inProgress) :
    JobWaiter_wait poll1 m1 = WaitResult.terminal JobStatus.completed ∧
    JobWaiter_wait poll2 m2 = WaitResult.waitTimeout ∧
    WaitResult.waitTimeout ≠ WaitResult.terminal JobStatus.completed := by
  refine ⟨?_, ?_, by intro hx; cases hx⟩
  · obtain ⟨k, hk⟩ := Nat.exists_eq_add_of_le hm
    subst hk
    rw [show 4 + k = k + 4 by omega]
    have s0 : waitFrom poll1 (k + 4) 0 = waitFrom poll1 (k + 3) 1 :=
      waitFrom_step poll1 (k + 3) 0 (by rw [h0]; rfl)
    have s1 : waitFrom poll1 (k + 3) 1 = waitFrom poll1 (k + 2) 2 :=
      waitFrom_step poll1 (k + 2) 1 (by rw [h1]; rfl)
    have s2 : waitFrom poll1 (k + 2) 2 = waitFrom poll1 (k + 1) 3 :=
      waitFrom_step poll1 (k + 1) 2 (by rw [h2]; rfl)
    have s3 : waitFrom poll1 (k + 1) 3 = WaitResult.terminal (poll1 3) :=
      waitFrom_hit poll1 k 3 (by rw [h3]; rfl)
    show waitFrom poll1 (k + 4) 0 = WaitResult.terminal JobStatus.completed
    rw [s0, s1, s2, s3, h3]
  · apply waitFrom_timeout poll2 m2 0
    intro j _ hj2
    rw [hip j (by omega)]
    rfl

/-- C3 witness: the four-status sequence with exactly four attempts returns
Completed, and a constantly InProgress job with six attempts times out. -/
theorem JobWaiter_wait_spec_witness :
    4 ≤ 4 ∧
    (JobWaiter_wait (fun i => [JobStatus.submitted, JobStatus.inProgress,
        JobStatus.inProgress].getD i JobStatus.completed) 4 =
      WaitResult.terminal JobStatus.completed ∧
    JobWaiter_wait (fun _ => JobStatus.inProgress) 6 = WaitResult.waitTimeout ∧
    WaitResult.waitTimeout ≠ WaitResult.terminal JobStatus.completed) :=
  ⟨by decide,
   JobWaiter_wait_spec
     (fun i => [JobStatus.submitted, JobStatus.inProgress,
        JobStatus.inProgress].getD i JobStatus.completed)
     (fun _ => JobStatus.inProgress) 4 6
     (by decide) rfl rfl rfl rfl (fun i _ => rfl)⟩
